import Mathlib

/-!
Verification of the dependency-injection composition root in
`api/pkg/di/container.go` of the httpsms repository.

The container is embedded as a state machine: every accessor of the Go
`Container` becomes a function from an environment (the process environment
variables and the success or failure of the external collaborators it talks
to) and a container state to a result.  Constructed component instances are
given consecutive numeric identities by an allocation counter so that
memoization ("the same instance is returned") and freshness ("a new instance
is constructed on every call") are expressible.  A fatal call on the logger
(`logger.Fatal` / `log.Fatal`, which terminates the Go process) is embedded
as an `Except.error` result that aborts the rest of the computation.

The dispatcher itself (`services.EventDispatcher`) and the listener packages
are not part of the excerpt; only their call sites are.  Where a claim is
decided by that missing code it is modelled separately from the words of the
specification (see `Dispatcher` and `listenerWrap` below), and the model is
clearly marked as such.
-/

namespace Di

/-- Kinds of components the container can construct. -/
inductive CKind where
  | app | dbHandle | logger | tracer | eventDispatcher
  | messageRepo | messageThreadRepo | heartbeatRepo | eventRepo | eventListenerLogRepo
  | messageService | messageThreadService | heartbeatService
  | messageValidator | messageThreadValidator | heartbeatValidator
  | messageHandler | messageThreadHandler | heartbeatHandler
  | messageListener | messageThreadListener | heartbeatListener
  deriving DecidableEq, Repr

/-- A constructed component: its allocation identity, its kind, and the
identities of the dependency instances passed to its constructor, in the
order of the Go constructor arguments. -/
structure Instance where
  id : Nat
  kind : CKind
  deps : List Nat
  deriving DecidableEq, Repr

/-- Route groups registered on the fiber application, in registration order.
The bodies of the handler `RegisterRoutes` methods are outside the excerpt;
what the container fixes is which registration calls run and in what order,
so each call is recorded as one tag. -/
inductive Route where
  | messages | messageThreads | heartbeats | swaggerCatchAll
  deriving DecidableEq, Repr

/-- Process-terminating failures: the fatal logger calls in `DB()` (gorm open
and the five migrations, in source order) and the `log.Fatal` in the free
function `logger()` when the Cloud Logging writer cannot be created. -/
inductive Fatal where
  | cloudLogging
  | dbOpen
  | migrate (k : Nat)
  deriving DecidableEq, Repr

/-- The process environment and the outcomes of the external collaborators:
`ENV == "local"`, whether the GCP Cloud Logging writer can be created,
`APP_HTTP_LOGGER == "true"`, whether `gorm.Open` succeeds, and whether each
of the five `AutoMigrate` calls succeeds (Message, GormEvent,
EventListenerLog, MessageThread, Heartbeat, in source order). -/
structure Env where
  isLocal : Bool
  gcpWriterOk : Bool
  httpLogger : Bool
  dbOpenOk : Bool
  migMessageOk : Bool
  migEventOk : Bool
  migListenerLogOk : Bool
  migThreadOk : Bool
  migHeartbeatOk : Bool
  deriving DecidableEq, Repr

/-- The mutable state of a `Container` value plus the allocation trace:
the three memoized singleton fields (`app`, `db`, `eventDispatcher`), the
allocation counter, every instance constructed so far, the dispatcher
subscription table (dispatcher instance identity, event type) and the
registered route groups. -/
structure ContainerState where
  nextId : Nat
  app : Option Instance
  db : Option Instance
  eventDispatcher : Option Instance
  built : List Instance
  subscriptions : List (Nat × String)
  routes : List Route
  deriving DecidableEq, Repr

def initState : ContainerState :=
  { nextId := 0, app := none, db := none, eventDispatcher := none
    built := [], subscriptions := [], routes := [] }

/-- Construct a fresh component instance of kind `k` with dependency
identities `deps`. -/
def alloc (k : CKind) (deps : List Nat) (s : ContainerState) : Instance × ContainerState :=
  let inst : Instance := { id := s.nextId, kind := k, deps := deps }
  (inst, { s with nextId := s.nextId + 1, built := inst :: s.built })

/-- Result of a container operation: either the process terminated through a
fatal logger call, or a value together with the successor state. -/
abbrev Res (α : Type) := Except Fatal (α × ContainerState)

/-- Sequencing of container operations; a fatal call aborts the rest. -/
def bindR {α β : Type} (x : Res α) (f : α → ContainerState → Res β) : Res β :=
  match x with
  | .error e => .error e
  | .ok p => f p.1 p.2

/-- The free function `logger()` together with the accessor
`Container.Logger()`: constructs a fresh zerolog-backed telemetry logger on
every call; when the process is not local and the Cloud Logging writer
cannot be created it calls `log.Fatal`. -/
def Logger (env : Env) (s : ContainerState) : Res Instance :=
  if env.isLocal || env.gcpWriterOk then .ok (alloc .logger [] s)
  else .error .cloudLogging

/-- Accessor `Tracer()`: a fresh `telemetry.NewOtelLogger(projectID, Logger())`. -/
def Tracer (env : Env) (s : ContainerState) : Res Instance :=
  bindR (Logger env s) fun lg s =>
  .ok (alloc .tracer [lg.id] s)

/-- Accessor `App()`: returns the cached fiber application if present,
otherwise constructs `fiber.New()` (attaching the http-logger and CORS
middleware, which are framework-internal effects) and caches it.  This
accessor performs no fallible call, so it is total. -/
def App (_env : Env) (s : ContainerState) : Instance × ContainerState :=
  match s.app with
  | some a => (a, s)
  | none =>
    let a := alloc .app [] s
    (a.1, { a.2 with app := some a.1 })

/-- Accessor `DB()`: returns the cached handle if present; otherwise opens
the gorm connection (fatal on failure), caches the handle, runs the five
migrations in source order (fatal on the first failure) and returns the
cached handle. -/
def DB (env : Env) (s : ContainerState) : Res Instance :=
  match s.db with
  | some d => .ok (d, s)
  | none =>
    if env.dbOpenOk then
      let a := alloc .dbHandle [] s
      let s2 := { a.2 with db := some a.1 }
      if env.migMessageOk then
        if env.migEventOk then
          if env.migListenerLogOk then
            if env.migThreadOk then
              if env.migHeartbeatOk then .ok (a.1, s2)
              else .error (.migrate 4)
            else .error (.migrate 3)
          else .error (.migrate 2)
        else .error (.migrate 1)
      else .error (.migrate 0)
    else .error .dbOpen

/-- Accessor `EventRepository()`: a fresh
`repositories.NewGormEventRepository(Logger(), Tracer(), DB())`. -/
def EventRepository (env : Env) (s : ContainerState) : Res Instance :=
  bindR (Logger env s) fun lg s =>
  bindR (Tracer env s) fun tr s =>
  bindR (DB env s) fun d s =>
  .ok (alloc .eventRepo [lg.id, tr.id, d.id] s)

/-- Accessor `EventDispatcher()`: returns the cached dispatcher if present,
otherwise constructs
`services.NewEventDispatcher(Logger(), Tracer(), EventRepository())` and
caches it. -/
def EventDispatcher (env : Env) (s : ContainerState) : Res Instance :=
  match s.eventDispatcher with
  | some d => .ok (d, s)
  | none =>
    bindR (Logger env s) fun lg s =>
    bindR (Tracer env s) fun tr s =>
    bindR (EventRepository env s) fun er s =>
    let a := alloc .eventDispatcher [lg.id, tr.id, er.id] s
    .ok (a.1, { a.2 with eventDispatcher := some a.1 })

/-- Accessor `MessageRepository()`: a fresh gorm message repository. -/
def MessageRepository (env : Env) (s : ContainerState) : Res Instance :=
  bindR (Logger env s) fun lg s =>
  bindR (Tracer env s) fun tr s =>
  bindR (DB env s) fun d s =>
  .ok (alloc .messageRepo [lg.id, tr.id, d.id] s)

/-- Accessor `MessageThreadRepository()`: a fresh gorm message-thread
repository. -/
def MessageThreadRepository (env : Env) (s : ContainerState) : Res Instance :=
  bindR (Logger env s) fun lg s =>
  bindR (Tracer env s) fun tr s =>
  bindR (DB env s) fun d s =>
  .ok (alloc .messageThreadRepo [lg.id, tr.id, d.id] s)

/-- Accessor `EventListenerLogRepository()`: a fresh gorm event-listener-log
repository. -/
def EventListenerLogRepository (env : Env) (s : ContainerState) : Res Instance :=
  bindR (Logger env s) fun lg s =>
  bindR (Tracer env s) fun tr s =>
  bindR (DB env s) fun d s =>
  .ok (alloc .eventListenerLogRepo [lg.id, tr.id, d.id] s)

/-- Accessor `HeartbeatRepository()`: a fresh gorm heartbeat repository. -/
def HeartbeatRepository (env : Env) (s : ContainerState) : Res Instance :=
  bindR (Logger env s) fun lg s =>
  bindR (Tracer env s) fun tr s =>
  bindR (DB env s) fun d s =>
  .ok (alloc .heartbeatRepo [lg.id, tr.id, d.id] s)

/-- Accessor `HeartbeatService()`: a fresh
`services.NewHeartbeatService(Logger(), Tracer(), HeartbeatRepository())`. -/
def HeartbeatService (env : Env) (s : ContainerState) : Res Instance :=
  bindR (Logger env s) fun lg s =>
  bindR (Tracer env s) fun tr s =>
  bindR (HeartbeatRepository env s) fun hr s =>
  .ok (alloc .heartbeatService [lg.id, tr.id, hr.id] s)

/-- Accessor `MessageThreadService()`: a fresh
`services.NewMessageThreadService(Logger(), Tracer(), MessageThreadRepository())`. -/
def MessageThreadService (env : Env) (s : ContainerState) : Res Instance :=
  bindR (Logger env s) fun lg s =>
  bindR (Tracer env s) fun tr s =>
  bindR (MessageThreadRepository env s) fun mr s =>
  .ok (alloc .messageThreadService [lg.id, tr.id, mr.id] s)

/-- Accessor `MessageService()`: a fresh `services.NewMessageService(Logger(),
Tracer(), MessageRepository(), EventDispatcher())`. -/
def MessageService (env : Env) (s : ContainerState) : Res Instance :=
  bindR (Logger env s) fun lg s =>
  bindR (Tracer env s) fun tr s =>
  bindR (MessageRepository env s) fun mr s =>
  bindR (EventDispatcher env s) fun ed s =>
  .ok (alloc .messageService [lg.id, tr.id, mr.id, ed.id] s)

/-- Accessor `MessageHandlerValidator()`: a fresh validator built from
`Logger()` and `Tracer()`. -/
def MessageHandlerValidator (env : Env) (s : ContainerState) : Res Instance :=
  bindR (Logger env s) fun lg s =>
  bindR (Tracer env s) fun tr s =>
  .ok (alloc .messageValidator [lg.id, tr.id] s)

/-- Accessor `MessageThreadHandlerValidator()`: a fresh validator built from
`Logger()` and `Tracer()`. -/
def MessageThreadHandlerValidator (env : Env) (s : ContainerState) : Res Instance :=
  bindR (Logger env s) fun lg s =>
  bindR (Tracer env s) fun tr s =>
  .ok (alloc .messageThreadValidator [lg.id, tr.id] s)

/-- Accessor `HeartbeatHandlerValidator()`: a fresh validator built from
`Logger()` and `Tracer()`. -/
def HeartbeatHandlerValidator (env : Env) (s : ContainerState) : Res Instance :=
  bindR (Logger env s) fun lg s =>
  bindR (Tracer env s) fun tr s =>
  .ok (alloc .heartbeatValidator [lg.id, tr.id] s)

/-- Accessor `MessageHandler()`: a fresh `handlers.NewMessageHandler(Logger(),
Tracer(), MessageHandlerValidator(), MessageService())`. -/
def MessageHandler (env : Env) (s : ContainerState) : Res Instance :=
  bindR (Logger env s) fun lg s =>
  bindR (Tracer env s) fun tr s =>
  bindR (MessageHandlerValidator env s) fun v s =>
  bindR (MessageService env s) fun ms s =>
  .ok (alloc .messageHandler [lg.id, tr.id, v.id, ms.id] s)

/-- Accessor `MessageThreadHandler()`: a fresh message-thread handler. -/
def MessageThreadHandler (env : Env) (s : ContainerState) : Res Instance :=
  bindR (Logger env s) fun lg s =>
  bindR (Tracer env s) fun tr s =>
  bindR (MessageThreadHandlerValidator env s) fun v s =>
  bindR (MessageThreadService env s) fun ms s =>
  .ok (alloc .messageThreadHandler [lg.id, tr.id, v.id, ms.id] s)

/-- Accessor `HeartbeatHandler()`: a fresh heartbeat handler. -/
def HeartbeatHandler (env : Env) (s : ContainerState) : Res Instance :=
  bindR (Logger env s) fun lg s =>
  bindR (Tracer env s) fun tr s =>
  bindR (HeartbeatHandlerValidator env s) fun v s =>
  bindR (HeartbeatService env s) fun hs s =>
  .ok (alloc .heartbeatHandler [lg.id, tr.id, v.id, hs.id] s)

/-- Modelled from the spec: the event types each listener group returns from
its constructor as its routes map.  The listener packages are outside the
excerpt; the specification names the representative topics "message.sent",
"thread.updated" and "heartbeat.received" for the three groups. -/
def messageListenerRoutes : List String := ["message.sent"]

/-- Modelled from the spec: the event types of the message-thread listener
group (the listener package is outside the excerpt). -/
def messageThreadListenerRoutes : List String := ["thread.updated"]

/-- Modelled from the spec: the event types of the heartbeat listener group
(the listener package is outside the excerpt). -/
def heartbeatListenerRoutes : List String := ["heartbeat.received"]

/-- One iteration per routes entry of the Go loop
`for event, handler := range routes do container.EventDispatcher().Subscribe(event, handler)`:
each iteration re-resolves the dispatcher accessor and appends the
subscription to its table. -/
def subscribeAll (env : Env) (events : List String) (s : ContainerState) : Res Unit :=
  match events with
  | [] => .ok ((), s)
  | e :: rest =>
    bindR (EventDispatcher env s) fun d s =>
    subscribeAll env rest { s with subscriptions := s.subscriptions ++ [(d.id, e)] }

/-- Method `RegisterMessageListeners()`: constructs the message listener group
with `Logger()`, `Tracer()`, `MessageService()` and
`EventListenerLogRepository()` (the listener value itself is discarded, only
its routes map is kept) and subscribes every route on the dispatcher. -/
def RegisterMessageListeners (env : Env) (s : ContainerState) : Res Unit :=
  bindR (Logger env s) fun lg s =>
  bindR (Tracer env s) fun tr s =>
  bindR (MessageService env s) fun ms s =>
  bindR (EventListenerLogRepository env s) fun lr s =>
  subscribeAll env messageListenerRoutes (alloc .messageListener [lg.id, tr.id, ms.id, lr.id] s).2

/-- Method `RegisterMessageThreadListeners()`: constructs the message-thread
listener group with `Logger()`, `Tracer()`, `MessageThreadService()` and
`EventListenerLogRepository()` and subscribes every route. -/
def RegisterMessageThreadListeners (env : Env) (s : ContainerState) : Res Unit :=
  bindR (Logger env s) fun lg s =>
  bindR (Tracer env s) fun tr s =>
  bindR (MessageThreadService env s) fun ms s =>
  bindR (EventListenerLogRepository env s) fun lr s =>
  subscribeAll env messageThreadListenerRoutes
    (alloc .messageThreadListener [lg.id, tr.id, ms.id, lr.id] s).2

/-- Method `RegisterHeartbeatListeners()`: constructs the heartbeat listener
group with `Logger()`, `Tracer()` and `HeartbeatService()` only (the source
passes no event-listener-log repository here) and subscribes every route. -/
def RegisterHeartbeatListeners (env : Env) (s : ContainerState) : Res Unit :=
  bindR (Logger env s) fun lg s =>
  bindR (Tracer env s) fun tr s =>
  bindR (HeartbeatService env s) fun hs s =>
  subscribeAll env heartbeatListenerRoutes (alloc .heartbeatListener [lg.id, tr.id, hs.id] s).2

/-- Method `RegisterMessageRoutes()`:
`container.MessageHandler().RegisterRoutes(container.App().Group("v1"))` —
the handler is resolved first, then the application, then the route group is
registered. -/
def RegisterMessageRoutes (env : Env) (s : ContainerState) : Res Unit :=
  bindR (MessageHandler env s) fun _ s =>
  let s1 := (App env s).2
  .ok ((), { s1 with routes := s1.routes ++ [.messages] })

/-- Method `RegisterMessageThreadRoutes()`. -/
def RegisterMessageThreadRoutes (env : Env) (s : ContainerState) : Res Unit :=
  bindR (MessageThreadHandler env s) fun _ s =>
  let s1 := (App env s).2
  .ok ((), { s1 with routes := s1.routes ++ [.messageThreads] })

/-- Method `RegisterHeartbeatRoutes()`. -/
def RegisterHeartbeatRoutes (env : Env) (s : ContainerState) : Res Unit :=
  bindR (HeartbeatHandler env s) fun _ s =>
  let s1 := (App env s).2
  .ok ((), { s1 with routes := s1.routes ++ [.heartbeats] })

/-- Method `RegisterSwaggerRoutes()`: installs the catch-all route
`container.App().Get("/*", swagger.HandlerDefault)`. -/
def RegisterSwaggerRoutes (env : Env) (s : ContainerState) : Res Unit :=
  let s1 := (App env s).2
  .ok ((), { s1 with routes := s1.routes ++ [.swaggerCatchAll] })

/-- Function `NewContainer(projectID)`: builds the container logger field
(a `logger()` call) and then performs the registrations in source order,
the Swagger registration last. -/
def NewContainer (env : Env) : Res Unit :=
  bindR (Logger env initState) fun _ s =>
  bindR (RegisterMessageListeners env s) fun _ s =>
  bindR (RegisterMessageRoutes env s) fun _ s =>
  bindR (RegisterMessageThreadRoutes env s) fun _ s =>
  bindR (RegisterMessageThreadListeners env s) fun _ s =>
  bindR (RegisterHeartbeatRoutes env s) fun _ s =>
  bindR (RegisterHeartbeatListeners env s) fun _ s =>
  bindR (RegisterSwaggerRoutes env s) fun _ s =>
  .ok ((), s)

/-- Whether a container operation returned without a fatal call. -/
def resOk {α : Type} : Res α → Bool
  | .ok _ => true
  | .error _ => false

/-- The state after a container operation, or the given default when the
operation was fatal. -/
def stateAfter {α : Type} (r : Res α) (dflt : ContainerState) : ContainerState :=
  match r with
  | .ok (_, s) => s
  | .error _ => dflt

/-- The instance returned by a container operation, or the given default when
the operation was fatal. -/
def instAfter (r : Res Instance) (dflt : Instance) : Instance :=
  match r with
  | .ok (i, _) => i
  | .error _ => dflt

/-- A default instance value for the `Option.getD` and `instAfter` defaults. -/
def dfltInst : Instance := { id := 0, kind := .logger, deps := [] }

/-- The canonical fully healthy environment: local process, all external
collaborators succeed. -/
def envOk : Env :=
  { isLocal := true, gcpWriterOk := true, httpLogger := false, dbOpenOk := true
    migMessageOk := true, migEventOk := true, migListenerLogOk := true
    migThreadOk := true, migHeartbeatOk := true }

/-- The environment in which the Cloud Logging writer cannot be created while
the database and every migration would succeed. -/
def envBadLogging : Env :=
  { isLocal := false, gcpWriterOk := false, httpLogger := false, dbOpenOk := true
    migMessageOk := true, migEventOk := true, migListenerLogOk := true
    migThreadOk := true, migHeartbeatOk := true }

/-- Whether every external collaborator the accessors rely on succeeds: the
telemetry logger can be constructed, the database opens, and all five
migrations succeed. -/
def okEnv (env : Env) : Bool :=
  (env.isLocal || env.gcpWriterOk) &&
    (env.dbOpenOk &&
      (env.migMessageOk &&
        (env.migEventOk &&
          (env.migListenerLogOk && (env.migThreadOk && env.migHeartbeatOk)))))

/-- The container state after `NewContainer` runs in the healthy
environment. -/
def ncState : ContainerState := stateAfter (NewContainer envOk) initState

/-- The kind of the instance with identity `i` in the allocation trace of
state `s`. -/
def kindOf (s : ContainerState) (i : Nat) : Option CKind :=
  (s.built.find? (fun inst => inst.id == i)).map (fun inst => inst.kind)

/-- Whether some instance of kind `k` was constructed in state `s`. -/
def hasKind (s : ContainerState) (k : CKind) : Bool :=
  s.built.any (fun i => i.kind == k)

/-- Whether instance `i` received, among its constructor arguments, some
instance of kind `k`. -/
def depsWithKind (s : ContainerState) (i : Instance) (k : CKind) : Bool :=
  i.deps.any (fun dp => kindOf s dp == some k)

/-- Whether every constructed instance of kind `k` received a dependency of
kind `dep`. -/
def allOfKindHaveDep (s : ContainerState) (k dep : CKind) : Bool :=
  s.built.all (fun i => !(i.kind == k) || depsWithKind s i dep)

/-- Whether no constructed instance of kind `k` received a dependency of
kind `dep`. -/
def noneOfKindHaveDep (s : ContainerState) (k dep : CKind) : Bool :=
  s.built.all (fun i => !(i.kind == k) || !(depsWithKind s i dep))

/-- Configuration errors of the dispatcher, fatal at startup. -/
inductive ConfigError where
  | duplicateListener
  deriving DecidableEq, Repr

/-- Modelled from the spec: the subscription table of
`services.EventDispatcher`, whose implementation is not part of the excerpt
(only its call sites in the container are).  It maps an event type to an
ordered collection of named listener handlers, kept here as a flat list of
(event type, listener name, handler) entries in registration order. -/
structure Dispatcher (H : Type) where
  subscribers : List (String × String × H)
  deriving DecidableEq, Repr

/-- Whether listener `nm` is already registered for event type `t`. -/
def Dispatcher.hasListener {H : Type} (d : Dispatcher H) (t nm : String) : Bool :=
  d.subscribers.any (fun p => p.1 == t && p.2.1 == nm)

/-- Modelled from the spec: `Subscribe(eventType, listenerName, handler)`
registers the handler under the event type and fails with a configuration
error, fatal at startup, when the listener name is already registered for
that event type. -/
def Dispatcher.subscribe {H : Type} (d : Dispatcher H) (t nm : String) (h : H) :
    Except ConfigError (Dispatcher H) :=
  if d.hasListener t nm then .error .duplicateListener
  else .ok { subscribers := d.subscribers ++ [(t, nm, h)] }

/-- Status of one event-listener-log record. -/
inductive LogStatus where
  | pending | success | failed
  deriving DecidableEq, Repr

/-- One `EventListenerLog` record: which listener processed which event,
with what outcome. -/
structure LogRecord where
  eventID : String
  listenerName : String
  status : LogStatus
  deriving DecidableEq, Repr

/-- The store behind `EventListenerLogRepository` together with a count of
how many times the wrapped side-effect has actually executed. -/
structure WrapState where
  log : List LogRecord
  execs : Nat
  deriving DecidableEq, Repr

/-- Lookup of the log record for the (event, listener) pair:
`FindByEventAndListener`. -/
def findLog (log : List LogRecord) (eid nm : String) : Option LogRecord :=
  log.find? (fun r => r.eventID == eid && r.listenerName == nm)

/-- Upsert of the log record for the (event, listener) pair with the given
status, keeping at most one record per pair. -/
def putLog (log : List LogRecord) (eid nm : String) (st : LogStatus) : List LogRecord :=
  { eventID := eid, listenerName := nm, status := st } ::
    log.filter (fun r => !(r.eventID == eid && r.listenerName == nm))

/-- Modelled from the spec: the unguarded tail of a listener invocation
(the listener packages are not part of the excerpt).  It records a pending
log entry, executes the wrapped side-effect (whose success is the `effectOk`
argument), and persists the outcome: success, or failed with the error
propagated to the dispatcher aggregation. -/
def listenerExec (nm eid : String) (effectOk : Bool) (s : WrapState) :
    WrapState × Except String Unit :=
  let pend := putLog s.log eid nm .pending
  if effectOk then
    ({ log := putLog pend eid nm .success, execs := s.execs + 1 }, .ok ())
  else
    ({ log := putLog pend eid nm .failed, execs := s.execs + 1 }, .error "listener failed")

/-- Modelled from the spec: the idempotency wrapper of a named listener.
It looks up the (event id, listener name) pair in the event-listener-log; if
a success record exists it returns immediately without executing the
side-effect, otherwise it runs `listenerExec`. -/
def listenerWrap (nm eid : String) (effectOk : Bool) (s : WrapState) :
    WrapState × Except String Unit :=
  match findLog s.log eid nm with
  | some r => if r.status = .success then (s, .ok ()) else listenerExec nm eid effectOk s
  | none => listenerExec nm eid effectOk s

/-- What every successful resolution of a plain accessor does to the
container state: the allocation counter does not decrease, the subscription
table, the registered routes and the cached application are untouched, and
the cached database handle and dispatcher are either untouched or were not
yet present. -/
def accessorStep (s s' : ContainerState) : Prop :=
  s.nextId ≤ s'.nextId ∧
  s'.subscriptions = s.subscriptions ∧
  s'.routes = s.routes ∧
  s'.app = s.app ∧
  (s'.db = s.db ∨ s.db = none) ∧
  (s'.eventDispatcher = s.eventDispatcher ∨ s.eventDispatcher = none)

theorem accessorStep_refl (s : ContainerState) : accessorStep s s :=
  ⟨le_refl _, rfl, rfl, rfl, Or.inl rfl, Or.inl rfl⟩

theorem accessorStep_trans {s1 s2 s3 : ContainerState}
    (h1 : accessorStep s1 s2) (h2 : accessorStep s2 s3) : accessorStep s1 s3 := by
  obtain ⟨n1, su1, r1, a1, d1, e1⟩ := h1
  obtain ⟨n2, su2, r2, a2, d2, e2⟩ := h2
  refine ⟨le_trans n1 n2, su2.trans su1, r2.trans r1, a2.trans a1, ?_, ?_⟩
  · rcases d1 with hd | hd
    · rcases d2 with hd2 | hd2
      · exact Or.inl (hd2.trans hd)
      · rw [hd] at hd2; exact Or.inr hd2
    · exact Or.inr hd
  · rcases e1 with he | he
    · rcases e2 with he2 | he2
      · exact Or.inl (he2.trans he)
      · rw [he] at he2; exact Or.inr he2
    · exact Or.inr he

theorem accessorStep_alloc (k : CKind) (d : List Nat) (s : ContainerState) :
    accessorStep s (alloc k d s).2 :=
  ⟨Nat.le_succ _, rfl, rfl, rfl, Or.inl rfl, Or.inl rfl⟩

theorem bindR_ok {α β : Type} {x : Res α} {f : α → ContainerState → Res β} {r : β}
    {s' : ContainerState} (h : bindR x f = .ok (r, s')) :
    ∃ a s1, x = .ok (a, s1) ∧ f a s1 = .ok (r, s') := by
  cases x with
  | error e => simp [bindR] at h
  | ok p => exact ⟨p.1, p.2, rfl, h⟩

theorem stepOK_Logger {env : Env} {s : ContainerState} {r : Instance}
    {s' : ContainerState} (h : Logger env s = .ok (r, s')) : accessorStep s s' := by
  unfold Logger at h
  split at h
  · have h2 := Except.ok.inj h
    have hs : s' = (alloc CKind.logger [] s).2 := (congrArg Prod.snd h2).symm
    subst hs
    exact accessorStep_alloc _ _ _
  · cases h

theorem stepOK_Tracer {env : Env} {s : ContainerState} {r : Instance}
    {s' : ContainerState} (h : Tracer env s = .ok (r, s')) : accessorStep s s' := by
  unfold Tracer at h
  obtain ⟨lg, s1, h1, h⟩ := bindR_ok h
  have h2 := Except.ok.inj h
  have hs : s' = (alloc CKind.tracer [lg.id] s1).2 := (congrArg Prod.snd h2).symm
  subst hs
  exact accessorStep_trans (stepOK_Logger h1) (accessorStep_alloc _ _ _)

theorem stepOK_DB {env : Env} {s : ContainerState} {r : Instance}
    {s' : ContainerState} (h : DB env s = .ok (r, s')) : accessorStep s s' := by
  unfold DB at h
  split at h
  · have h2 := Except.ok.inj h
    have hs : s' = s := (congrArg Prod.snd h2).symm
    rw [hs]
    exact accessorStep_refl _
  · rename_i hdb
    repeat' split at h
    any_goals exact Except.noConfusion h
    have h2 := Except.ok.inj h
    have hs : s' = { (alloc CKind.dbHandle [] s).2 with db := some (alloc CKind.dbHandle [] s).1 } :=
      (congrArg Prod.snd h2).symm
    rw [hs]
    exact ⟨Nat.le_succ _, rfl, rfl, rfl, Or.inr hdb, Or.inl rfl⟩

theorem accessorStep_of_ok_alloc {s sN s' : ContainerState} {k : CKind} {d : List Nat}
    {r : Instance} (h : (Except.ok (alloc k d sN) : Res Instance) = .ok (r, s'))
    (pre : accessorStep s sN) : accessorStep s s' := by
  have h2 := Except.ok.inj h
  have hs : s' = (alloc k d sN).2 := (congrArg Prod.snd h2).symm
  rw [hs]
  exact accessorStep_trans pre (accessorStep_alloc _ _ _)

theorem stepOK_EventRepository {env : Env} {s : ContainerState} {r : Instance}
    {s' : ContainerState} (h : EventRepository env s = .ok (r, s')) : accessorStep s s' := by
  unfold EventRepository at h
  obtain ⟨lg, s1, h1, h⟩ := bindR_ok h
  obtain ⟨tr, s2, h2, h⟩ := bindR_ok h
  obtain ⟨d, s3, h3, h⟩ := bindR_ok h
  exact accessorStep_of_ok_alloc h
    (accessorStep_trans (stepOK_Logger h1) (accessorStep_trans (stepOK_Tracer h2) (stepOK_DB h3)))

theorem stepOK_MessageRepository {env : Env} {s : ContainerState} {r : Instance}
    {s' : ContainerState} (h : MessageRepository env s = .ok (r, s')) : accessorStep s s' := by
  unfold MessageRepository at h
  obtain ⟨lg, s1, h1, h⟩ := bindR_ok h
  obtain ⟨tr, s2, h2, h⟩ := bindR_ok h
  obtain ⟨d, s3, h3, h⟩ := bindR_ok h
  exact accessorStep_of_ok_alloc h
    (accessorStep_trans (stepOK_Logger h1) (accessorStep_trans (stepOK_Tracer h2) (stepOK_DB h3)))

theorem stepOK_MessageThreadRepository {env : Env} {s : ContainerState} {r : Instance}
    {s' : ContainerState} (h : MessageThreadRepository env s = .ok (r, s')) : accessorStep s s' := by
  unfold MessageThreadRepository at h
  obtain ⟨lg, s1, h1, h⟩ := bindR_ok h
  obtain ⟨tr, s2, h2, h⟩ := bindR_ok h
  obtain ⟨d, s3, h3, h⟩ := bindR_ok h
  exact accessorStep_of_ok_alloc h
    (accessorStep_trans (stepOK_Logger h1) (accessorStep_trans (stepOK_Tracer h2) (stepOK_DB h3)))

theorem stepOK_EventListenerLogRepository {env : Env} {s : ContainerState} {r : Instance}
    {s' : ContainerState} (h : EventListenerLogRepository env s = .ok (r, s')) :
    accessorStep s s' := by
  unfold EventListenerLogRepository at h
  obtain ⟨lg, s1, h1, h⟩ := bindR_ok h
  obtain ⟨tr, s2, h2, h⟩ := bindR_ok h
  obtain ⟨d, s3, h3, h⟩ := bindR_ok h
  exact accessorStep_of_ok_alloc h
    (accessorStep_trans (stepOK_Logger h1) (accessorStep_trans (stepOK_Tracer h2) (stepOK_DB h3)))

theorem stepOK_HeartbeatRepository {env : Env} {s : ContainerState} {r : Instance}
    {s' : ContainerState} (h : HeartbeatRepository env s = .ok (r, s')) : accessorStep s s' := by
  unfold HeartbeatRepository at h
  obtain ⟨lg, s1, h1, h⟩ := bindR_ok h
  obtain ⟨tr, s2, h2, h⟩ := bindR_ok h
  obtain ⟨d, s3, h3, h⟩ := bindR_ok h
  exact accessorStep_of_ok_alloc h
    (accessorStep_trans (stepOK_Logger h1) (accessorStep_trans (stepOK_Tracer h2) (stepOK_DB h3)))

theorem stepOK_EventDispatcher {env : Env} {s : ContainerState} {r : Instance}
    {s' : ContainerState} (h : EventDispatcher env s = .ok (r, s')) : accessorStep s s' := by
  unfold EventDispatcher at h
  split at h
  · have h2 := Except.ok.inj h
    have hs : s' = s := (congrArg Prod.snd h2).symm
    rw [hs]
    exact accessorStep_refl _
  · rename_i hed
    obtain ⟨lg, s1, h1, h⟩ := bindR_ok h
    obtain ⟨tr, s2, h2, h⟩ := bindR_ok h
    obtain ⟨er, s3, h3, h⟩ := bindR_ok h
    have h4 := Except.ok.inj h
    have hs : s' =
        { (alloc CKind.eventDispatcher [lg.id, tr.id, er.id] s3).2 with
          eventDispatcher := some (alloc CKind.eventDispatcher [lg.id, tr.id, er.id] s3).1 } :=
      (congrArg Prod.snd h4).symm
    rw [hs]
    have pre : accessorStep s (alloc CKind.eventDispatcher [lg.id, tr.id, er.id] s3).2 :=
      accessorStep_trans (stepOK_Logger h1)
        (accessorStep_trans (stepOK_Tracer h2)
          (accessorStep_trans (stepOK_EventRepository h3) (accessorStep_alloc _ _ _)))
    exact ⟨pre.1, pre.2.1, pre.2.2.1, pre.2.2.2.1, pre.2.2.2.2.1, Or.inr hed⟩

theorem stepOK_MessageService {env : Env} {s : ContainerState} {r : Instance}
    {s' : ContainerState} (h : MessageService env s = .ok (r, s')) : accessorStep s s' := by
  unfold MessageService at h
  obtain ⟨lg, s1, h1, h⟩ := bindR_ok h
  obtain ⟨tr, s2, h2, h⟩ := bindR_ok h
  obtain ⟨mr, s3, h3, h⟩ := bindR_ok h
  obtain ⟨ed, s4, h4, h⟩ := bindR_ok h
  exact accessorStep_of_ok_alloc h
    (accessorStep_trans (stepOK_Logger h1)
      (accessorStep_trans (stepOK_Tracer h2)
        (accessorStep_trans (stepOK_MessageRepository h3) (stepOK_EventDispatcher h4))))

theorem stepOK_MessageThreadService {env : Env} {s : ContainerState} {r : Instance}
    {s' : ContainerState} (h : MessageThreadService env s = .ok (r, s')) : accessorStep s s' := by
  unfold MessageThreadService at h
  obtain ⟨lg, s1, h1, h⟩ := bindR_ok h
  obtain ⟨tr, s2, h2, h⟩ := bindR_ok h
  obtain ⟨mr, s3, h3, h⟩ := bindR_ok h
  exact accessorStep_of_ok_alloc h
    (accessorStep_trans (stepOK_Logger h1)
      (accessorStep_trans (stepOK_Tracer h2) (stepOK_MessageThreadRepository h3)))

theorem stepOK_HeartbeatService {env : Env} {s : ContainerState} {r : Instance}
    {s' : ContainerState} (h : HeartbeatService env s = .ok (r, s')) : accessorStep s s' := by
  unfold HeartbeatService at h
  obtain ⟨lg, s1, h1, h⟩ := bindR_ok h
  obtain ⟨tr, s2, h2, h⟩ := bindR_ok h
  obtain ⟨hr, s3, h3, h⟩ := bindR_ok h
  exact accessorStep_of_ok_alloc h
    (accessorStep_trans (stepOK_Logger h1)
      (accessorStep_trans (stepOK_Tracer h2) (stepOK_HeartbeatRepository h3)))

theorem stepOK_MessageHandlerValidator {env : Env} {s : ContainerState} {r : Instance}
    {s' : ContainerState} (h : MessageHandlerValidator env s = .ok (r, s')) :
    accessorStep s s' := by
  unfold MessageHandlerValidator at h
  obtain ⟨lg, s1, h1, h⟩ := bindR_ok h
  obtain ⟨tr, s2, h2, h⟩ := bindR_ok h
  exact accessorStep_of_ok_alloc h
    (accessorStep_trans (stepOK_Logger h1) (stepOK_Tracer h2))

theorem stepOK_MessageThreadHandlerValidator {env : Env} {s : ContainerState} {r : Instance}
    {s' : ContainerState} (h : MessageThreadHandlerValidator env s = .ok (r, s')) :
    accessorStep s s' := by
  unfold MessageThreadHandlerValidator at h
  obtain ⟨lg, s1, h1, h⟩ := bindR_ok h
  obtain ⟨tr, s2, h2, h⟩ := bindR_ok h
  exact accessorStep_of_ok_alloc h
    (accessorStep_trans (stepOK_Logger h1) (stepOK_Tracer h2))

theorem stepOK_HeartbeatHandlerValidator {env : Env} {s : ContainerState} {r : Instance}
    {s' : ContainerState} (h : HeartbeatHandlerValidator env s = .ok (r, s')) :
    accessorStep s s' := by
  unfold HeartbeatHandlerValidator at h
  obtain ⟨lg, s1, h1, h⟩ := bindR_ok h
  obtain ⟨tr, s2, h2, h⟩ := bindR_ok h
  exact accessorStep_of_ok_alloc h
    (accessorStep_trans (stepOK_Logger h1) (stepOK_Tracer h2))

theorem stepOK_MessageHandler {env : Env} {s : ContainerState} {r : Instance}
    {s' : ContainerState} (h : MessageHandler env s = .ok (r, s')) : accessorStep s s' := by
  unfold MessageHandler at h
  obtain ⟨lg, s1, h1, h⟩ := bindR_ok h
  obtain ⟨tr, s2, h2, h⟩ := bindR_ok h
  obtain ⟨v, s3, h3, h⟩ := bindR_ok h
  obtain ⟨ms, s4, h4, h⟩ := bindR_ok h
  exact accessorStep_of_ok_alloc h
    (accessorStep_trans (stepOK_Logger h1)
      (accessorStep_trans (stepOK_Tracer h2)
        (accessorStep_trans (stepOK_MessageHandlerValidator h3) (stepOK_MessageService h4))))

theorem stepOK_MessageThreadHandler {env : Env} {s : ContainerState} {r : Instance}
    {s' : ContainerState} (h : MessageThreadHandler env s = .ok (r, s')) : accessorStep s s' := by
  unfold MessageThreadHandler at h
  obtain ⟨lg, s1, h1, h⟩ := bindR_ok h
  obtain ⟨tr, s2, h2, h⟩ := bindR_ok h
  obtain ⟨v, s3, h3, h⟩ := bindR_ok h
  obtain ⟨ms, s4, h4, h⟩ := bindR_ok h
  exact accessorStep_of_ok_alloc h
    (accessorStep_trans (stepOK_Logger h1)
      (accessorStep_trans (stepOK_Tracer h2)
        (accessorStep_trans (stepOK_MessageThreadHandlerValidator h3)
          (stepOK_MessageThreadService h4))))

theorem stepOK_HeartbeatHandler {env : Env} {s : ContainerState} {r : Instance}
    {s' : ContainerState} (h : HeartbeatHandler env s = .ok (r, s')) : accessorStep s s' := by
  unfold HeartbeatHandler at h
  obtain ⟨lg, s1, h1, h⟩ := bindR_ok h
  obtain ⟨tr, s2, h2, h⟩ := bindR_ok h
  obtain ⟨v, s3, h3, h⟩ := bindR_ok h
  obtain ⟨hs, s4, h4, h⟩ := bindR_ok h
  exact accessorStep_of_ok_alloc h
    (accessorStep_trans (stepOK_Logger h1)
      (accessorStep_trans (stepOK_Tracer h2)
        (accessorStep_trans (stepOK_HeartbeatHandlerValidator h3) (stepOK_HeartbeatService h4))))

theorem App_subscriptions (env : Env) (s : ContainerState) :
    (App env s).2.subscriptions = s.subscriptions := by
  cases h : s.app <;> simp [App, h, alloc]

theorem App_routes (env : Env) (s : ContainerState) : (App env s).2.routes = s.routes := by
  cases h : s.app <;> simp [App, h, alloc]

theorem App_db (env : Env) (s : ContainerState) : (App env s).2.db = s.db := by
  cases h : s.app <;> simp [App, h, alloc]

theorem App_ed (env : Env) (s : ContainerState) :
    (App env s).2.eventDispatcher = s.eventDispatcher := by
  cases h : s.app <;> simp [App, h, alloc]

theorem App_caches (env : Env) (s : ContainerState) :
    (App env s).2.app = some (App env s).1 := by
  cases h : s.app <;> simp [App, h, alloc]

theorem App_memo (env env2 : Env) (s : ContainerState) :
    App env2 (App env s).2 = ((App env s).1, (App env s).2) := by
  cases h : s.app <;> simp [App, h, alloc]

theorem DB_cached {env : Env} {s : ContainerState} {d : Instance} (h : s.db = some d) :
    DB env s = .ok (d, s) := by
  unfold DB
  rw [h]

theorem DB_sets {env : Env} {s : ContainerState} {d : Instance} {s' : ContainerState}
    (h : DB env s = .ok (d, s')) : s'.db = some d := by
  unfold DB at h
  split at h
  · rename_i d0 hdb
    have h2 := Except.ok.inj h
    have hfst : d0 = d := congrArg Prod.fst h2
    have hsnd : s = s' := congrArg Prod.snd h2
    rw [← hsnd, hdb, hfst]
  · repeat' split at h
    any_goals exact Except.noConfusion h
    have h2 := Except.ok.inj h
    have hfst : (alloc CKind.dbHandle [] s).1 = d := congrArg Prod.fst h2
    have hsnd : ({ (alloc CKind.dbHandle [] s).2 with
        db := some (alloc CKind.dbHandle [] s).1 } : ContainerState) = s' :=
      congrArg Prod.snd h2
    rw [← hsnd]
    exact congrArg some hfst

theorem DB_memo {env : Env} {s : ContainerState} {d : Instance} {s' : ContainerState}
    (h : DB env s = .ok (d, s')) : ∀ env2 : Env, DB env2 s' = .ok (d, s') :=
  fun _ => DB_cached (DB_sets h)

theorem ED_cached {env : Env} {s : ContainerState} {d : Instance}
    (h : s.eventDispatcher = some d) : EventDispatcher env s = .ok (d, s) := by
  unfold EventDispatcher
  rw [h]

theorem ED_sets {env : Env} {s : ContainerState} {d : Instance} {s' : ContainerState}
    (h : EventDispatcher env s = .ok (d, s')) : s'.eventDispatcher = some d := by
  unfold EventDispatcher at h
  split at h
  · rename_i d0 hed
    have h2 := Except.ok.inj h
    have hfst : d0 = d := congrArg Prod.fst h2
    have hsnd : s = s' := congrArg Prod.snd h2
    rw [← hsnd, hed, hfst]
  · obtain ⟨lg, s1, h1, h⟩ := bindR_ok h
    obtain ⟨tr, s2, h2, h⟩ := bindR_ok h
    obtain ⟨er, s3, h3, h⟩ := bindR_ok h
    have h4 := Except.ok.inj h
    have hfst : (alloc CKind.eventDispatcher [lg.id, tr.id, er.id] s3).1 = d :=
      congrArg Prod.fst h4
    have hsnd : ({ (alloc CKind.eventDispatcher [lg.id, tr.id, er.id] s3).2 with
        eventDispatcher := some (alloc CKind.eventDispatcher [lg.id, tr.id, er.id] s3).1 } :
        ContainerState) = s' :=
      congrArg Prod.snd h4
    rw [← hsnd]
    exact congrArg some hfst

theorem ED_memo {env : Env} {s : ContainerState} {d : Instance} {s' : ContainerState}
    (h : EventDispatcher env s = .ok (d, s')) : ∀ env2 : Env, EventDispatcher env2 s' = .ok (d, s') :=
  fun _ => ED_cached (ED_sets h)

theorem accessorStep_ed {s s' : ContainerState} (st : accessorStep s s') {d : Instance}
    (hd : s.eventDispatcher = some d) : s'.eventDispatcher = some d := by
  rcases st.2.2.2.2.2 with h | h
  · rw [h, hd]
  · rw [hd] at h
    exact Option.noConfusion h

theorem fresh_of_ok_alloc {sN s' : ContainerState} {k : CKind} {d : List Nat} {r : Instance}
    (h : (Except.ok (alloc k d sN) : Res Instance) = .ok (r, s')) :
    r.id = sN.nextId ∧ s'.nextId = sN.nextId + 1 := by
  have h2 := Except.ok.inj h
  have hfst : (alloc k d sN).1 = r := congrArg Prod.fst h2
  have hsnd : (alloc k d sN).2 = s' := congrArg Prod.snd h2
  constructor
  · rw [← hfst]
    rfl
  · rw [← hsnd]
    rfl

theorem MessageService_fresh {env : Env} {s : ContainerState} {r : Instance}
    {s' : ContainerState} (h : MessageService env s = .ok (r, s')) :
    s.nextId ≤ r.id ∧ r.id < s'.nextId := by
  unfold MessageService at h
  obtain ⟨lg, s1, h1, h⟩ := bindR_ok h
  obtain ⟨tr, s2, h2, h⟩ := bindR_ok h
  obtain ⟨mr, s3, h3, h⟩ := bindR_ok h
  obtain ⟨ed, s4, h4, h⟩ := bindR_ok h
  have pre : s.nextId ≤ s4.nextId :=
    (accessorStep_trans (stepOK_Logger h1)
      (accessorStep_trans (stepOK_Tracer h2)
        (accessorStep_trans (stepOK_MessageRepository h3) (stepOK_EventDispatcher h4)))).1
  obtain ⟨hid, hnext⟩ := fresh_of_ok_alloc h
  omega

theorem MessageRepository_fresh {env : Env} {s : ContainerState} {r : Instance}
    {s' : ContainerState} (h : MessageRepository env s = .ok (r, s')) :
    s.nextId ≤ r.id ∧ r.id < s'.nextId := by
  unfold MessageRepository at h
  obtain ⟨lg, s1, h1, h⟩ := bindR_ok h
  obtain ⟨tr, s2, h2, h⟩ := bindR_ok h
  obtain ⟨d, s3, h3, h⟩ := bindR_ok h
  have pre : s.nextId ≤ s3.nextId :=
    (accessorStep_trans (stepOK_Logger h1)
      (accessorStep_trans (stepOK_Tracer h2) (stepOK_DB h3))).1
  obtain ⟨hid, hnext⟩ := fresh_of_ok_alloc h
  omega

theorem MessageHandlerValidator_fresh {env : Env} {s : ContainerState} {r : Instance}
    {s' : ContainerState} (h : MessageHandlerValidator env s = .ok (r, s')) :
    s.nextId ≤ r.id ∧ r.id < s'.nextId := by
  unfold MessageHandlerValidator at h
  obtain ⟨lg, s1, h1, h⟩ := bindR_ok h
  obtain ⟨tr, s2, h2, h⟩ := bindR_ok h
  have pre : s.nextId ≤ s2.nextId :=
    (accessorStep_trans (stepOK_Logger h1) (stepOK_Tracer h2)).1
  obtain ⟨hid, hnext⟩ := fresh_of_ok_alloc h
  omega

theorem MessageService_disp {env : Env} {s : ContainerState} {d : Instance} {r : Instance}
    {s' : ContainerState} (hd : s.eventDispatcher = some d)
    (h : MessageService env s = .ok (r, s')) :
    d.id ∈ r.deps ∧ s'.eventDispatcher = some d := by
  unfold MessageService at h
  obtain ⟨lg, s1, h1, h⟩ := bindR_ok h
  obtain ⟨tr, s2, h2, h⟩ := bindR_ok h
  obtain ⟨mr, s3, h3, h⟩ := bindR_ok h
  obtain ⟨ed, s4, h4, h⟩ := bindR_ok h
  have p3 : s3.eventDispatcher = some d :=
    accessorStep_ed (stepOK_MessageRepository h3)
      (accessorStep_ed (stepOK_Tracer h2) (accessorStep_ed (stepOK_Logger h1) hd))
  rw [ED_cached p3] at h4
  have h5 := Except.ok.inj h4
  have hed : d = ed := congrArg Prod.fst h5
  have hs4 : s3 = s4 := congrArg Prod.snd h5
  have h6 := Except.ok.inj h
  have hfst : (alloc CKind.messageService [lg.id, tr.id, mr.id, ed.id] s4).1 = r :=
    congrArg Prod.fst h6
  have hsnd : (alloc CKind.messageService [lg.id, tr.id, mr.id, ed.id] s4).2 = s' :=
    congrArg Prod.snd h6
  constructor
  · rw [← hfst]
    show d.id ∈ [lg.id, tr.id, mr.id, ed.id]
    rw [hed]
    simp
  · rw [← hsnd]
    show s4.eventDispatcher = some d
    rw [← hs4]
    exact p3

theorem subscribeAll_routes {env : Env} : ∀ (events : List String) (s : ContainerState)
    {r : Unit} {s' : ContainerState}, subscribeAll env events s = .ok (r, s') →
    s'.routes = s.routes := by
  intro events
  induction events with
  | nil =>
    intro s r s' h
    unfold subscribeAll at h
    have h2 := Except.ok.inj h
    have hsnd : s = s' := congrArg Prod.snd h2
    rw [← hsnd]
  | cons e rest ih =>
    intro s r s' h
    unfold subscribeAll at h
    obtain ⟨dI, s1, h1, h⟩ := bindR_ok h
    have h2 := ih _ h
    rw [h2]
    exact (stepOK_EventDispatcher h1).2.2.1

theorem RegisterMessageListeners_routes {env : Env} {s : ContainerState} {r : Unit}
    {s' : ContainerState} (h : RegisterMessageListeners env s = .ok (r, s')) :
    s'.routes = s.routes := by
  unfold RegisterMessageListeners at h
  obtain ⟨lg, s1, h1, h⟩ := bindR_ok h
  obtain ⟨tr, s2, h2, h⟩ := bindR_ok h
  obtain ⟨ms, s3, h3, h⟩ := bindR_ok h
  obtain ⟨lr, s4, h4, h⟩ := bindR_ok h
  have h5 := subscribeAll_routes _ _ h
  rw [h5]
  exact (accessorStep_trans (stepOK_Logger h1)
    (accessorStep_trans (stepOK_Tracer h2)
      (accessorStep_trans (stepOK_MessageService h3)
        (stepOK_EventListenerLogRepository h4)))).2.2.1

theorem RegisterMessageThreadListeners_routes {env : Env} {s : ContainerState} {r : Unit}
    {s' : ContainerState} (h : RegisterMessageThreadListeners env s = .ok (r, s')) :
    s'.routes = s.routes := by
  unfold RegisterMessageThreadListeners at h
  obtain ⟨lg, s1, h1, h⟩ := bindR_ok h
  obtain ⟨tr, s2, h2, h⟩ := bindR_ok h
  obtain ⟨ms, s3, h3, h⟩ := bindR_ok h
  obtain ⟨lr, s4, h4, h⟩ := bindR_ok h
  have h5 := subscribeAll_routes _ _ h
  rw [h5]
  exact (accessorStep_trans (stepOK_Logger h1)
    (accessorStep_trans (stepOK_Tracer h2)
      (accessorStep_trans (stepOK_MessageThreadService h3)
        (stepOK_EventListenerLogRepository h4)))).2.2.1

theorem RegisterHeartbeatListeners_routes {env : Env} {s : ContainerState} {r : Unit}
    {s' : ContainerState} (h : RegisterHeartbeatListeners env s = .ok (r, s')) :
    s'.routes = s.routes := by
  unfold RegisterHeartbeatListeners at h
  obtain ⟨lg, s1, h1, h⟩ := bindR_ok h
  obtain ⟨tr, s2, h2, h⟩ := bindR_ok h
  obtain ⟨hs, s3, h3, h⟩ := bindR_ok h
  have h5 := subscribeAll_routes _ _ h
  rw [h5]
  exact (accessorStep_trans (stepOK_Logger h1)
    (accessorStep_trans (stepOK_Tracer h2) (stepOK_HeartbeatService h3))).2.2.1

theorem RegisterMessageRoutes_routes {env : Env} {s : ContainerState} {r : Unit}
    {s' : ContainerState} (h : RegisterMessageRoutes env s = .ok (r, s')) :
    s'.routes = s.routes ++ [Route.messages] := by
  unfold RegisterMessageRoutes at h
  obtain ⟨mh, s1, h1, h⟩ := bindR_ok h
  have h2 := Except.ok.inj h
  have hsnd : ({ (App env s1).2 with
      routes := (App env s1).2.routes ++ [Route.messages] } : ContainerState) = s' :=
    congrArg Prod.snd h2
  rw [← hsnd]
  show (App env s1).2.routes ++ [Route.messages] = s.routes ++ [Route.messages]
  rw [App_routes, (stepOK_MessageHandler h1).2.2.1]

theorem RegisterMessageThreadRoutes_routes {env : Env} {s : ContainerState} {r : Unit}
    {s' : ContainerState} (h : RegisterMessageThreadRoutes env s = .ok (r, s')) :
    s'.routes = s.routes ++ [Route.messageThreads] := by
  unfold RegisterMessageThreadRoutes at h
  obtain ⟨mh, s1, h1, h⟩ := bindR_ok h
  have h2 := Except.ok.inj h
  have hsnd : ({ (App env s1).2 with
      routes := (App env s1).2.routes ++ [Route.messageThreads] } : ContainerState) = s' :=
    congrArg Prod.snd h2
  rw [← hsnd]
  show (App env s1).2.routes ++ [Route.messageThreads] = s.routes ++ [Route.messageThreads]
  rw [App_routes, (stepOK_MessageThreadHandler h1).2.2.1]

theorem RegisterHeartbeatRoutes_routes {env : Env} {s : ContainerState} {r : Unit}
    {s' : ContainerState} (h : RegisterHeartbeatRoutes env s = .ok (r, s')) :
    s'.routes = s.routes ++ [Route.heartbeats] := by
  unfold RegisterHeartbeatRoutes at h
  obtain ⟨mh, s1, h1, h⟩ := bindR_ok h
  have h2 := Except.ok.inj h
  have hsnd : ({ (App env s1).2 with
      routes := (App env s1).2.routes ++ [Route.heartbeats] } : ContainerState) = s' :=
    congrArg Prod.snd h2
  rw [← hsnd]
  show (App env s1).2.routes ++ [Route.heartbeats] = s.routes ++ [Route.heartbeats]
  rw [App_routes, (stepOK_HeartbeatHandler h1).2.2.1]

theorem RegisterSwaggerRoutes_routes {env : Env} {s : ContainerState} {r : Unit}
    {s' : ContainerState} (h : RegisterSwaggerRoutes env s = .ok (r, s')) :
    s'.routes = s.routes ++ [Route.swaggerCatchAll] := by
  unfold RegisterSwaggerRoutes at h
  have h2 := Except.ok.inj h
  have hsnd : ({ (App env s).2 with
      routes := (App env s).2.routes ++ [Route.swaggerCatchAll] } : ContainerState) = s' :=
    congrArg Prod.snd h2
  rw [← hsnd]
  show (App env s).2.routes ++ [Route.swaggerCatchAll] = s.routes ++ [Route.swaggerCatchAll]
  rw [App_routes]

theorem NewContainer_routes {env : Env} {r : Unit} {s' : ContainerState}
    (h : NewContainer env = .ok (r, s')) :
    s'.routes = [Route.messages, Route.messageThreads, Route.heartbeats, Route.swaggerCatchAll] := by
  unfold NewContainer at h
  obtain ⟨lg, s1, h1, h⟩ := bindR_ok h
  obtain ⟨uA, s2, hA, h⟩ := bindR_ok h
  obtain ⟨uB, s3, hB, h⟩ := bindR_ok h
  obtain ⟨uC, s4, hC, h⟩ := bindR_ok h
  obtain ⟨uD, s5, hD, h⟩ := bindR_ok h
  obtain ⟨uE, s6, hE, h⟩ := bindR_ok h
  obtain ⟨uF, s7, hF, h⟩ := bindR_ok h
  obtain ⟨uG, s8, hG, h⟩ := bindR_ok h
  have h2 := Except.ok.inj h
  have hsnd : s8 = s' := congrArg Prod.snd h2
  have e1 : s1.routes = initState.routes := (stepOK_Logger h1).2.2.1
  have e2 := RegisterMessageListeners_routes hA
  have e3 := RegisterMessageRoutes_routes hB
  have e4 := RegisterMessageThreadRoutes_routes hC
  have e5 := RegisterMessageThreadListeners_routes hD
  have e6 := RegisterHeartbeatRoutes_routes hE
  have e7 := RegisterHeartbeatListeners_routes hF
  have e8 := RegisterSwaggerRoutes_routes hG
  rw [← hsnd, e8, e7, e6, e5, e4, e3, e2, e1]
  rfl

theorem Logger_fatal {env : Env} (h : (env.isLocal || env.gcpWriterOk) = false)
    (s : ContainerState) : Logger env s = .error .cloudLogging := by
  simp [Logger, h]

theorem Logger_ok {env : Env} (h : (env.isLocal || env.gcpWriterOk) = true)
    (s : ContainerState) : Logger env s = .ok (alloc CKind.logger [] s) := by
  simp [Logger, h]

theorem DB_fatal_iff {env : Env} {s : ContainerState} (h : s.db = none) :
    resOk (DB env s) = false ↔
      (env.dbOpenOk && env.migMessageOk && env.migEventOk && env.migListenerLogOk &&
        env.migThreadOk && env.migHeartbeatOk) = false := by
  rcases env with ⟨il, gw, hl, dbo, m1, m2, m3, m4, m5⟩
  cases dbo <;> cases m1 <;> cases m2 <;> cases m3 <;> cases m4 <;> cases m5 <;>
    simp [DB, h, resOk]

theorem bindR_ok_of {α β : Type} {x : Res α} {f : α → ContainerState → Res β}
    (hx : ∃ a s1, x = .ok (a, s1))
    (hf : ∀ a s1, ∃ b s2, f a s1 = .ok (b, s2)) :
    ∃ b s2, bindR x f = .ok (b, s2) := by
  obtain ⟨a, s1, hx⟩ := hx
  obtain ⟨b, s2, hf2⟩ := hf a s1
  refine ⟨b, s2, ?_⟩
  rw [hx]
  exact hf2

theorem resOk_of_ex {α : Type} {x : Res α} (h : ∃ r s', x = .ok (r, s')) :
    resOk x = true := by
  obtain ⟨r, s', hx⟩ := h
  rw [hx]
  rfl

theorem Logger_okE {env : Env} (h : okEnv env = true) (s : ContainerState) :
    ∃ r s', Logger env s = .ok (r, s') := by
  simp only [okEnv, Bool.and_eq_true] at h
  exact ⟨_, _, Logger_ok h.1 s⟩

theorem Tracer_okE {env : Env} (h : okEnv env = true) (s : ContainerState) :
    ∃ r s', Tracer env s = .ok (r, s') := by
  unfold Tracer
  exact bindR_ok_of (Logger_okE h s) fun lg s1 => ⟨_, _, rfl⟩

theorem DB_okE {env : Env} (h : okEnv env = true) (s : ContainerState) :
    ∃ r s', DB env s = .ok (r, s') := by
  cases hdb : s.db with
  | some d => exact ⟨d, s, DB_cached hdb⟩
  | none =>
    simp only [okEnv, Bool.and_eq_true] at h
    obtain ⟨h1, h2, h3, h4, h5, h6, h7⟩ := h
    refine ⟨(alloc CKind.dbHandle [] s).1,
      { (alloc CKind.dbHandle [] s).2 with db := some (alloc CKind.dbHandle [] s).1 }, ?_⟩
    unfold DB
    rw [hdb]
    simp [h2, h3, h4, h5, h6, h7]

theorem EventRepository_okE {env : Env} (h : okEnv env = true) (s : ContainerState) :
    ∃ r s', EventRepository env s = .ok (r, s') := by
  unfold EventRepository
  exact bindR_ok_of (Logger_okE h s) fun lg s1 =>
    bindR_ok_of (Tracer_okE h s1) fun tr s2 =>
      bindR_ok_of (DB_okE h s2) fun d s3 => ⟨_, _, rfl⟩

theorem MessageRepository_okE {env : Env} (h : okEnv env = true) (s : ContainerState) :
    ∃ r s', MessageRepository env s = .ok (r, s') := by
  unfold MessageRepository
  exact bindR_ok_of (Logger_okE h s) fun lg s1 =>
    bindR_ok_of (Tracer_okE h s1) fun tr s2 =>
      bindR_ok_of (DB_okE h s2) fun d s3 => ⟨_, _, rfl⟩

theorem MessageThreadRepository_okE {env : Env} (h : okEnv env = true) (s : ContainerState) :
    ∃ r s', MessageThreadRepository env s = .ok (r, s') := by
  unfold MessageThreadRepository
  exact bindR_ok_of (Logger_okE h s) fun lg s1 =>
    bindR_ok_of (Tracer_okE h s1) fun tr s2 =>
      bindR_ok_of (DB_okE h s2) fun d s3 => ⟨_, _, rfl⟩

theorem EventListenerLogRepository_okE {env : Env} (h : okEnv env = true)
    (s : ContainerState) : ∃ r s', EventListenerLogRepository env s = .ok (r, s') := by
  unfold EventListenerLogRepository
  exact bindR_ok_of (Logger_okE h s) fun lg s1 =>
    bindR_ok_of (Tracer_okE h s1) fun tr s2 =>
      bindR_ok_of (DB_okE h s2) fun d s3 => ⟨_, _, rfl⟩

theorem HeartbeatRepository_okE {env : Env} (h : okEnv env = true) (s : ContainerState) :
    ∃ r s', HeartbeatRepository env s = .ok (r, s') := by
  unfold HeartbeatRepository
  exact bindR_ok_of (Logger_okE h s) fun lg s1 =>
    bindR_ok_of (Tracer_okE h s1) fun tr s2 =>
      bindR_ok_of (DB_okE h s2) fun d s3 => ⟨_, _, rfl⟩

theorem EventDispatcher_okE {env : Env} (h : okEnv env = true) (s : ContainerState) :
    ∃ r s', EventDispatcher env s = .ok (r, s') := by
  cases hed : s.eventDispatcher with
  | some d => exact ⟨d, s, ED_cached hed⟩
  | none =>
    unfold EventDispatcher
    rw [hed]
    exact bindR_ok_of (Logger_okE h s) fun lg s1 =>
      bindR_ok_of (Tracer_okE h s1) fun tr s2 =>
        bindR_ok_of (EventRepository_okE h s2) fun er s3 => ⟨_, _, rfl⟩

theorem MessageService_okE {env : Env} (h : okEnv env = true) (s : ContainerState) :
    ∃ r s', MessageService env s = .ok (r, s') := by
  unfold MessageService
  exact bindR_ok_of (Logger_okE h s) fun lg s1 =>
    bindR_ok_of (Tracer_okE h s1) fun tr s2 =>
      bindR_ok_of (MessageRepository_okE h s2) fun mr s3 =>
        bindR_ok_of (EventDispatcher_okE h s3) fun ed s4 => ⟨_, _, rfl⟩

theorem MessageThreadService_okE {env : Env} (h : okEnv env = true) (s : ContainerState) :
    ∃ r s', MessageThreadService env s = .ok (r, s') := by
  unfold MessageThreadService
  exact bindR_ok_of (Logger_okE h s) fun lg s1 =>
    bindR_ok_of (Tracer_okE h s1) fun tr s2 =>
      bindR_ok_of (MessageThreadRepository_okE h s2) fun mr s3 => ⟨_, _, rfl⟩

theorem HeartbeatService_okE {env : Env} (h : okEnv env = true) (s : ContainerState) :
    ∃ r s', HeartbeatService env s = .ok (r, s') := by
  unfold HeartbeatService
  exact bindR_ok_of (Logger_okE h s) fun lg s1 =>
    bindR_ok_of (Tracer_okE h s1) fun tr s2 =>
      bindR_ok_of (HeartbeatRepository_okE h s2) fun hr s3 => ⟨_, _, rfl⟩

theorem MessageHandlerValidator_okE {env : Env} (h : okEnv env = true) (s : ContainerState) :
    ∃ r s', MessageHandlerValidator env s = .ok (r, s') := by
  unfold MessageHandlerValidator
  exact bindR_ok_of (Logger_okE h s) fun lg s1 =>
    bindR_ok_of (Tracer_okE h s1) fun tr s2 => ⟨_, _, rfl⟩

theorem MessageThreadHandlerValidator_okE {env : Env} (h : okEnv env = true)
    (s : ContainerState) : ∃ r s', MessageThreadHandlerValidator env s = .ok (r, s') := by
  unfold MessageThreadHandlerValidator
  exact bindR_ok_of (Logger_okE h s) fun lg s1 =>
    bindR_ok_of (Tracer_okE h s1) fun tr s2 => ⟨_, _, rfl⟩

theorem HeartbeatHandlerValidator_okE {env : Env} (h : okEnv env = true)
    (s : ContainerState) : ∃ r s', HeartbeatHandlerValidator env s = .ok (r, s') := by
  unfold HeartbeatHandlerValidator
  exact bindR_ok_of (Logger_okE h s) fun lg s1 =>
    bindR_ok_of (Tracer_okE h s1) fun tr s2 => ⟨_, _, rfl⟩

theorem MessageHandler_okE {env : Env} (h : okEnv env = true) (s : ContainerState) :
    ∃ r s', MessageHandler env s = .ok (r, s') := by
  unfold MessageHandler
  exact bindR_ok_of (Logger_okE h s) fun lg s1 =>
    bindR_ok_of (Tracer_okE h s1) fun tr s2 =>
      bindR_ok_of (MessageHandlerValidator_okE h s2) fun v s3 =>
        bindR_ok_of (MessageService_okE h s3) fun ms s4 => ⟨_, _, rfl⟩

theorem MessageThreadHandler_okE {env : Env} (h : okEnv env = true) (s : ContainerState) :
    ∃ r s', MessageThreadHandler env s = .ok (r, s') := by
  unfold MessageThreadHandler
  exact bindR_ok_of (Logger_okE h s) fun lg s1 =>
    bindR_ok_of (Tracer_okE h s1) fun tr s2 =>
      bindR_ok_of (MessageThreadHandlerValidator_okE h s2) fun v s3 =>
        bindR_ok_of (MessageThreadService_okE h s3) fun ms s4 => ⟨_, _, rfl⟩

theorem HeartbeatHandler_okE {env : Env} (h : okEnv env = true) (s : ContainerState) :
    ∃ r s', HeartbeatHandler env s = .ok (r, s') := by
  unfold HeartbeatHandler
  exact bindR_ok_of (Logger_okE h s) fun lg s1 =>
    bindR_ok_of (Tracer_okE h s1) fun tr s2 =>
      bindR_ok_of (HeartbeatHandlerValidator_okE h s2) fun v s3 =>
        bindR_ok_of (HeartbeatService_okE h s3) fun hs s4 => ⟨_, _, rfl⟩

theorem findLog_putLog (log : List LogRecord) (eid nm : String) (st : LogStatus) :
    findLog (putLog log eid nm st) eid nm =
      some { eventID := eid, listenerName := nm, status := st } := by
  unfold findLog putLog
  rw [List.find?_cons_of_pos _ (by simp)]

theorem listenerWrap_success {nm eid : String} {eff : Bool} {s1 : WrapState}
    (hf : findLog s1.log eid nm = some { eventID := eid, listenerName := nm, status := .success }) :
    listenerWrap nm eid eff s1 = (s1, Except.ok ()) := by
  unfold listenerWrap
  rw [hf]
  simp

theorem listenerExec_success_log (nm eid : String) (s : WrapState) :
    findLog (listenerExec nm eid true s).1.log eid nm =
      some { eventID := eid, listenerName := nm, status := .success } := by
  show findLog (putLog (putLog s.log eid nm .pending) eid nm .success) eid nm = _
  exact findLog_putLog _ _ _ _

/-- C1: the Subscribe operation of the dispatcher registers the handler under
the event type and fails with the startup configuration error exactly when
the listener name is already registered for that event type, so a duplicate
registration is rejected at subscription time, before any event can be
published. -/
theorem subscribe_rejects_duplicate_listener {H : Type} (d : Dispatcher H) (t nm : String)
    (x : H) :
    (d.hasListener t nm = true → d.subscribe t nm x = .error .duplicateListener) ∧
    (d.hasListener t nm = false →
      d.subscribe t nm x = .ok { subscribers := d.subscribers ++ [(t, nm, x)] }) ∧
    (∀ (d2 : Dispatcher H) (x2 : H), d.subscribe t nm x = .ok d2 →
      d2.subscribe t nm x2 = .error .duplicateListener) := by
  refine ⟨?_, ?_, ?_⟩
  · intro hh
    simp [Dispatcher.subscribe, hh]
  · intro hh
    simp [Dispatcher.subscribe, hh]
  · intro d2 x2 hok
    unfold Dispatcher.subscribe at hok
    split at hok
    · exact Except.noConfusion hok
    · have hd2 : ({ subscribers := d.subscribers ++ [(t, nm, x)] } : Dispatcher H) = d2 :=
        Except.ok.inj hok
      rw [← hd2]
      have hdup : Dispatcher.hasListener
          { subscribers := d.subscribers ++ [(t, nm, x)] } t nm = true := by
        simp [Dispatcher.hasListener]
      simp [Dispatcher.subscribe, hdup]

/-- C1 witness: on a dispatcher that already holds the listener
"on-message-sent" for "message.sent", a second subscription of the same name
to the same event type is rejected with the configuration error. -/
theorem subscribe_rejects_duplicate_listener_witness :
    Dispatcher.subscribe ({ subscribers := [("message.sent", "on-message-sent", 0)] } :
        Dispatcher Nat)
      "message.sent" "on-message-sent" 1 = .error .duplicateListener :=
  (subscribe_rejects_duplicate_listener
    ({ subscribers := [("message.sent", "on-message-sent", 0)] } : Dispatcher Nat)
    "message.sent" "on-message-sent" 1).1 (by decide)

set_option maxRecDepth 8000 in
/-- C2 counterexample: the claim that every one of the three listener groups
is constructed with the EventListenerLog repository is false on the code:
in the container state built by NewContainer, a heartbeat listener group
instance exists and none of its constructor dependencies is an
event-listener-log repository (RegisterHeartbeatListeners passes only the
logger, the tracer and the heartbeat service). -/
theorem heartbeat_listener_without_log_repo :
    hasKind ncState CKind.heartbeatListener = true ∧
    noneOfKindHaveDep ncState CKind.heartbeatListener CKind.eventListenerLogRepo = true := by
  decide

set_option maxRecDepth 8000 in
/-- C2 amended: the Message and MessageThread listener groups are each
constructed with an EventListenerLog repository dependency, while the
Heartbeat listener group is constructed without one, so only the first two
groups carry the log-backed idempotency guard. -/
theorem listener_groups_log_repo_amended :
    hasKind ncState CKind.messageListener = true ∧
    hasKind ncState CKind.messageThreadListener = true ∧
    hasKind ncState CKind.heartbeatListener = true ∧
    allOfKindHaveDep ncState CKind.messageListener CKind.eventListenerLogRepo = true ∧
    allOfKindHaveDep ncState CKind.messageThreadListener CKind.eventListenerLogRepo = true ∧
    noneOfKindHaveDep ncState CKind.heartbeatListener CKind.eventListenerLogRepo = true := by
  decide

/-- C3: the accessors App, DB and EventDispatcher are memoized singletons:
the first call constructs and caches the component, and any later call (in
any environment) returns the identical cached instance with the container
state unchanged, so nothing is constructed again. -/
theorem singleton_accessors_memoized (env env2 : Env) (s : ContainerState) :
    (App env2 (App env s).2 = ((App env s).1, (App env s).2) ∧
      (App env s).2.app = some (App env s).1) ∧
    (∀ d s', DB env s = .ok (d, s') → DB env2 s' = .ok (d, s') ∧ s'.db = some d) ∧
    (∀ d s', EventDispatcher env s = .ok (d, s') →
      EventDispatcher env2 s' = .ok (d, s') ∧ s'.eventDispatcher = some d) := by
  refine ⟨⟨App_memo env env2 s, App_caches env s⟩, ?_, ?_⟩
  · intro d s' h
    exact ⟨DB_memo h env2, DB_sets h⟩
  · intro d s' h
    exact ⟨ED_memo h env2, ED_sets h⟩

/-- C3 witness: evaluating DB and EventDispatcher twice from the initial
state in the healthy environment, the second call returns exactly the first
result with the state unchanged. -/
theorem singleton_accessors_memoized_witness :
    DB envOk (stateAfter (DB envOk initState) initState) =
      .ok (instAfter (DB envOk initState) dfltInst, stateAfter (DB envOk initState) initState) ∧
    EventDispatcher envOk (stateAfter (EventDispatcher envOk initState) initState) =
      .ok (instAfter (EventDispatcher envOk initState) dfltInst,
        stateAfter (EventDispatcher envOk initState) initState) :=
  ⟨((singleton_accessors_memoized envOk envOk initState).2.1
      (instAfter (DB envOk initState) dfltInst)
      (stateAfter (DB envOk initState) initState) rfl).1,
    ((singleton_accessors_memoized envOk envOk initState).2.2
      (instAfter (EventDispatcher envOk initState) dfltInst)
      (stateAfter (EventDispatcher envOk initState) initState) rfl).1⟩

/-- C4: whenever NewContainer completes, the route registrations it performed
are, in order, the message, message-thread and heartbeat groups followed by
the Swagger catch-all, so the catch-all route is registered last, after every
other route registration. -/
theorem swagger_routes_registered_last {env : Env} {r : Unit} {s' : ContainerState}
    (h : NewContainer env = .ok (r, s')) :
    s'.routes = [Route.messages, Route.messageThreads, Route.heartbeats, Route.swaggerCatchAll] ∧
    s'.routes.getLast? = some Route.swaggerCatchAll := by
  have h2 := NewContainer_routes h
  refine ⟨h2, ?_⟩
  rw [h2]
  rfl

/-- C4 witness: in the healthy environment NewContainer completes and its
route list ends with the Swagger catch-all. -/
theorem swagger_routes_registered_last_witness :
    ncState.routes =
      [Route.messages, Route.messageThreads, Route.heartbeats, Route.swaggerCatchAll] ∧
    ncState.routes.getLast? = some Route.swaggerCatchAll :=
  swagger_routes_registered_last (rfl : NewContainer envOk = Except.ok ((), ncState))

/-- C5: the subscription table is populated exactly by the listener
registrations inside NewContainer (the three event types, in registration
order), and no accessor of the container ever changes the subscription
table, so after NewContainer returns the table is fixed. -/
theorem subscriptions_fixed_after_composition :
    (resOk (NewContainer envOk) = true ∧
      ncState.subscriptions.map Prod.snd =
        ["message.sent", "thread.updated", "heartbeat.received"]) ∧
    (∀ env s, (App env s).2.subscriptions = s.subscriptions) ∧
    (∀ env s r s', Logger env s = .ok (r, s') → s'.subscriptions = s.subscriptions) ∧
    (∀ env s r s', Tracer env s = .ok (r, s') → s'.subscriptions = s.subscriptions) ∧
    (∀ env s r s', DB env s = .ok (r, s') → s'.subscriptions = s.subscriptions) ∧
    (∀ env s r s', EventDispatcher env s = .ok (r, s') →
      s'.subscriptions = s.subscriptions) ∧
    (∀ env s r s', EventRepository env s = .ok (r, s') →
      s'.subscriptions = s.subscriptions) ∧
    (∀ env s r s', MessageRepository env s = .ok (r, s') →
      s'.subscriptions = s.subscriptions) ∧
    (∀ env s r s', MessageThreadRepository env s = .ok (r, s') →
      s'.subscriptions = s.subscriptions) ∧
    (∀ env s r s', EventListenerLogRepository env s = .ok (r, s') →
      s'.subscriptions = s.subscriptions) ∧
    (∀ env s r s', HeartbeatRepository env s = .ok (r, s') →
      s'.subscriptions = s.subscriptions) ∧
    (∀ env s r s', MessageService env s = .ok (r, s') →
      s'.subscriptions = s.subscriptions) ∧
    (∀ env s r s', MessageThreadService env s = .ok (r, s') →
      s'.subscriptions = s.subscriptions) ∧
    (∀ env s r s', HeartbeatService env s = .ok (r, s') →
      s'.subscriptions = s.subscriptions) ∧
    (∀ env s r s', MessageHandlerValidator env s = .ok (r, s') →
      s'.subscriptions = s.subscriptions) ∧
    (∀ env s r s', MessageThreadHandlerValidator env s = .ok (r, s') →
      s'.subscriptions = s.subscriptions) ∧
    (∀ env s r s', HeartbeatHandlerValidator env s = .ok (r, s') →
      s'.subscriptions = s.subscriptions) ∧
    (∀ env s r s', MessageHandler env s = .ok (r, s') →
      s'.subscriptions = s.subscriptions) ∧
    (∀ env s r s', MessageThreadHandler env s = .ok (r, s') →
      s'.subscriptions = s.subscriptions) ∧
    (∀ env s r s', HeartbeatHandler env s = .ok (r, s') →
      s'.subscriptions = s.subscriptions) := by
  refine ⟨⟨rfl, rfl⟩, App_subscriptions, ?_, ?_, ?_, ?_, ?_, ?_, ?_, ?_, ?_, ?_, ?_, ?_,
    ?_, ?_, ?_, ?_, ?_, ?_⟩ <;> intro env s r s' h
  · exact (stepOK_Logger h).2.1
  · exact (stepOK_Tracer h).2.1
  · exact (stepOK_DB h).2.1
  · exact (stepOK_EventDispatcher h).2.1
  · exact (stepOK_EventRepository h).2.1
  · exact (stepOK_MessageRepository h).2.1
  · exact (stepOK_MessageThreadRepository h).2.1
  · exact (stepOK_EventListenerLogRepository h).2.1
  · exact (stepOK_HeartbeatRepository h).2.1
  · exact (stepOK_MessageService h).2.1
  · exact (stepOK_MessageThreadService h).2.1
  · exact (stepOK_HeartbeatService h).2.1
  · exact (stepOK_MessageHandlerValidator h).2.1
  · exact (stepOK_MessageThreadHandlerValidator h).2.1
  · exact (stepOK_HeartbeatHandlerValidator h).2.1
  · exact (stepOK_MessageHandler h).2.1
  · exact (stepOK_MessageThreadHandler h).2.1
  · exact (stepOK_HeartbeatHandler h).2.1

/-- C5 witness: the Logger accessor, resolved in the healthy environment from
the initial state, leaves the subscription table unchanged. -/
theorem subscriptions_fixed_after_composition_witness :
    (stateAfter (Logger envOk initState) initState).subscriptions =
      initState.subscriptions :=
  subscriptions_fixed_after_composition.2.2.1 envOk initState
    (instAfter (Logger envOk initState) dfltInst)
    (stateAfter (Logger envOk initState) initState) rfl

/-- C6: invoking a listener idempotency wrapper a second time with the same
event id after an invocation whose side-effect succeeded is a no-op: the
first invocation executes the side-effect at most once, and the second
invocation finds the success record, leaves the log and execution count
unchanged and reports success without executing the side-effect. -/
theorem listener_wrapper_idempotent (nm eid : String) (eff2 : Bool) (s : WrapState) :
    (listenerWrap nm eid true s).1.execs ≤ s.execs + 1 ∧
    listenerWrap nm eid eff2 (listenerWrap nm eid true s).1 =
      ((listenerWrap nm eid true s).1, Except.ok ()) := by
  rcases hcase : findLog s.log eid nm with _ | r
  · have h1 : listenerWrap nm eid true s = listenerExec nm eid true s := by
      unfold listenerWrap
      rw [hcase]
    rw [h1]
    constructor
    · simp [listenerExec]
    · exact listenerWrap_success (listenerExec_success_log nm eid s)
  · by_cases hs : r.status = .success
    · have hr : r = { eventID := eid, listenerName := nm, status := .success } := by
        have hp := List.find?_some hcase
        simp at hp
        obtain ⟨he, hn⟩ := hp
        cases r
        simp_all
      have h1 : listenerWrap nm eid true s = (s, Except.ok ()) := by
        unfold listenerWrap
        rw [hcase]
        simp [hs]
      rw [h1]
      refine ⟨Nat.le_succ_of_le (le_refl _), ?_⟩
      exact listenerWrap_success (by rw [hcase, hr])
    · have h1 : listenerWrap nm eid true s = listenerExec nm eid true s := by
        unfold listenerWrap
        rw [hcase]
        simp [hs]
      rw [h1]
      constructor
      · simp [listenerExec]
      · exact listenerWrap_success (listenerExec_success_log nm eid s)

/-- C7: the service, repository and validator accessors are not memoized:
two consecutive resolutions of MessageService, MessageRepository or
MessageHandlerValidator construct distinct instances. -/
theorem resolvers_construct_fresh_instances (env : Env) (s : ContainerState) :
    (∀ r1 s1 r2 s2, MessageService env s = .ok (r1, s1) →
      MessageService env s1 = .ok (r2, s2) → r1.id ≠ r2.id) ∧
    (∀ r1 s1 r2 s2, MessageRepository env s = .ok (r1, s1) →
      MessageRepository env s1 = .ok (r2, s2) → r1.id ≠ r2.id) ∧
    (∀ r1 s1 r2 s2, MessageHandlerValidator env s = .ok (r1, s1) →
      MessageHandlerValidator env s1 = .ok (r2, s2) → r1.id ≠ r2.id) := by
  refine ⟨?_, ?_, ?_⟩ <;> intro r1 s1 r2 s2 h1 h2
  · have f1 := MessageService_fresh h1
    have f2 := MessageService_fresh h2
    omega
  · have f1 := MessageRepository_fresh h1
    have f2 := MessageRepository_fresh h2
    omega
  · have f1 := MessageHandlerValidator_fresh h1
    have f2 := MessageHandlerValidator_fresh h2
    omega

/-- C7 witness: two consecutive MessageService resolutions from the initial
state in the healthy environment return instances with distinct
identities. -/
theorem resolvers_construct_fresh_instances_witness :
    (instAfter (MessageService envOk initState) dfltInst).id ≠
      (instAfter (MessageService envOk (stateAfter (MessageService envOk initState) initState))
        dfltInst).id :=
  (resolvers_construct_fresh_instances envOk initState).1
    (instAfter (MessageService envOk initState) dfltInst)
    (stateAfter (MessageService envOk initState) initState)
    (instAfter (MessageService envOk (stateAfter (MessageService envOk initState) initState))
      dfltInst)
    (stateAfter (MessageService envOk (stateAfter (MessageService envOk initState) initState))
      (stateAfter (MessageService envOk initState) initState))
    rfl rfl

/-- C8 counterexample: the claim that no container accessor other than DB
terminates the process is false on the code: the Logger accessor (through
the free function logger()) calls log.Fatal when the process is not local
and the Cloud Logging writer cannot be created, in an environment where
opening the database and every migration would succeed. -/
theorem logger_fatal_outside_db :
    Logger envBadLogging initState = .error Fatal.cloudLogging ∧
    envBadLogging.dbOpenOk = true ∧ envBadLogging.migMessageOk = true ∧
    envBadLogging.migEventOk = true ∧ envBadLogging.migListenerLogOk = true ∧
    envBadLogging.migThreadOk = true ∧ envBadLogging.migHeartbeatOk = true :=
  ⟨rfl, rfl, rfl, rfl, rfl, rfl, rfl⟩

/-- C8 amended: DB calls the fatal logger exactly when opening the connection
or one of the migrations fails, and on success caches and returns the
handle.  One other fatal site exists: the logger constructor, shared by
every accessor that resolves the telemetry logger, terminates exactly when
the process is neither local nor able to create the Cloud Logging writer.
These two sites are the only ways an accessor terminates: whenever the
logger is constructible and the database opens and every migration
succeeds, every container accessor returns without a fatal call. -/
theorem fatal_sites_characterized :
    (∀ env s, s.db = none →
      (resOk (DB env s) = false ↔
        (env.dbOpenOk && env.migMessageOk && env.migEventOk && env.migListenerLogOk &&
          env.migThreadOk && env.migHeartbeatOk) = false)) ∧
    (∀ env s d s', DB env s = .ok (d, s') → s'.db = some d) ∧
    (∀ env s, (env.isLocal || env.gcpWriterOk) = false →
      Logger env s = .error Fatal.cloudLogging) ∧
    (∀ env s, (env.isLocal || env.gcpWriterOk) = true → resOk (Logger env s) = true) ∧
    (∀ env s, okEnv env = true →
      resOk (Logger env s) = true ∧ resOk (Tracer env s) = true ∧
      resOk (DB env s) = true ∧ resOk (EventDispatcher env s) = true ∧
      resOk (EventRepository env s) = true ∧ resOk (MessageRepository env s) = true ∧
      resOk (MessageThreadRepository env s) = true ∧
      resOk (EventListenerLogRepository env s) = true ∧
      resOk (HeartbeatRepository env s) = true ∧ resOk (MessageService env s) = true ∧
      resOk (MessageThreadService env s) = true ∧ resOk (HeartbeatService env s) = true ∧
      resOk (MessageHandlerValidator env s) = true ∧
      resOk (MessageThreadHandlerValidator env s) = true ∧
      resOk (HeartbeatHandlerValidator env s) = true ∧
      resOk (MessageHandler env s) = true ∧ resOk (MessageThreadHandler env s) = true ∧
      resOk (HeartbeatHandler env s) = true) := by
  refine ⟨?_, ?_, ?_, ?_, ?_⟩
  · intro env s h
    exact DB_fatal_iff h
  · intro env s d s' h
    exact DB_sets h
  · intro env s h
    exact Logger_fatal h s
  · intro env s h
    rw [Logger_ok h]
    rfl
  · intro env s h
    exact ⟨resOk_of_ex (Logger_okE h s), resOk_of_ex (Tracer_okE h s),
      resOk_of_ex (DB_okE h s), resOk_of_ex (EventDispatcher_okE h s),
      resOk_of_ex (EventRepository_okE h s), resOk_of_ex (MessageRepository_okE h s),
      resOk_of_ex (MessageThreadRepository_okE h s),
      resOk_of_ex (EventListenerLogRepository_okE h s),
      resOk_of_ex (HeartbeatRepository_okE h s), resOk_of_ex (MessageService_okE h s),
      resOk_of_ex (MessageThreadService_okE h s), resOk_of_ex (HeartbeatService_okE h s),
      resOk_of_ex (MessageHandlerValidator_okE h s),
      resOk_of_ex (MessageThreadHandlerValidator_okE h s),
      resOk_of_ex (HeartbeatHandlerValidator_okE h s),
      resOk_of_ex (MessageHandler_okE h s), resOk_of_ex (MessageThreadHandler_okE h s),
      resOk_of_ex (HeartbeatHandler_okE h s)⟩

/-- C8 witness: in the healthy environment, resolving DB from the initial
state is not fatal, matching the characterization. -/
theorem fatal_sites_characterized_witness :
    resOk (DB envOk initState) = false ↔
      (envOk.dbOpenOk && envOk.migMessageOk && envOk.migEventOk && envOk.migListenerLogOk &&
        envOk.migThreadOk && envOk.migHeartbeatOk) = false :=
  fatal_sites_characterized.1 envOk initState rfl

set_option maxRecDepth 8000 in
/-- C9: the dispatcher the three listener registrations subscribed to is the
cached singleton, every subscription recorded by NewContainer names that
singleton, and any MessageService resolution from a state whose dispatcher
singleton is cached receives that same dispatcher as a constructor
dependency and leaves it cached. -/
theorem message_service_gets_subscribed_dispatcher :
    (resOk (NewContainer envOk) = true ∧
      ncState.eventDispatcher.isSome = true ∧
      ncState.subscriptions.all
        (fun p => ncState.eventDispatcher.map Instance.id == some p.1) = true) ∧
    (∀ env s d r s', s.eventDispatcher = some d → MessageService env s = .ok (r, s') →
      d.id ∈ r.deps ∧ s'.eventDispatcher = some d) := by
  refine ⟨⟨rfl, rfl, by decide⟩, ?_⟩
  intro env s d r s' hd h
  exact MessageService_disp hd h

/-- C9 witness: resolving MessageService from the state NewContainer built
passes the cached dispatcher singleton to the service constructor and leaves
it cached. -/
theorem message_service_gets_subscribed_dispatcher_witness :
    (ncState.eventDispatcher.getD dfltInst).id ∈
      (instAfter (MessageService envOk ncState) dfltInst).deps ∧
    (stateAfter (MessageService envOk ncState) ncState).eventDispatcher =
      some (ncState.eventDispatcher.getD dfltInst) :=
  message_service_gets_subscribed_dispatcher.2 envOk ncState
    (ncState.eventDispatcher.getD dfltInst)
    (instAfter (MessageService envOk ncState) dfltInst)
    (stateAfter (MessageService envOk ncState) ncState)
    rfl rfl

/-- C10: after NewContainer completes in the healthy environment all three
singleton fields are initialized, and a later call of each singleton
accessor, in any environment, returns the cached instance with the state
unchanged, performing no further construction. -/
theorem new_container_initializes_singletons :
    resOk (NewContainer envOk) = true ∧
    ncState.app.isSome = true ∧ ncState.db.isSome = true ∧
    ncState.eventDispatcher.isSome = true ∧
    (∀ env2 : Env,
      App env2 ncState = (ncState.app.getD dfltInst, ncState) ∧
      DB env2 ncState = .ok (ncState.db.getD dfltInst, ncState) ∧
      EventDispatcher env2 ncState = .ok (ncState.eventDispatcher.getD dfltInst, ncState)) := by
  refine ⟨rfl, rfl, rfl, rfl, fun env2 => ⟨?_, ?_, ?_⟩⟩ <;> rfl

end Di
